import Mathlib

/-!
Verification of claude-recall against its specification.

Shallow embedding of the parts of the repository the claims concern:
* `integrations/clawd/hooks.ts` — `ClawdHooks` lifecycle hooks and the
  regex-based observation extractor (`extractObservations`, `onSessionEnd`).
* `integrations/moltbook/handlers.ts` — `MoltBookHandlers.handleRequest`,
  the JSON-RPC (MCP) dispatch with its initialization gate.
* `integrations/clawd/index.ts` — `fetchWithRetry`, the bounded retry /
  backoff HTTP client.
* `migrations/001_initial.sql`, `002_add_favorites.sql`, `003_add_tags.sql` —
  the relational schema: cascading foreign keys and the FTS sync triggers.
* `src/favorites/FavoritesStore.ts` — the favorites map with its size cap.
-/

namespace ClaudeRecall

/-! ### JavaScript regex fragments used by the extractor

The extractor in `hooks.ts` runs patterns of the shape `/T\s+(.+)/gi` over a
string (`T` a literal trigger such as `i prefer` or `i'll`).  We model the
exact ECMAScript semantics for this pattern family over `List Char`:
case-insensitive literal match of the trigger, a greedy run of whitespace
with backtracking, then a greedy `(.+)` capture that stops at a line
terminator, iterated from the end of each match (`matchAll` with the `g`
flag). -/

/-- Characters matched by JavaScript `\\s`: ASCII whitespace, no-break
space, BOM, the Unicode space separators and the line separators. -/
def isJsSpace (c : Char) : Bool :=
  c == ' ' || c == '\t' || c == '\n' || c == '\r' ||
  c == '\x0b' || c == '\x0c' || c == '\u00a0' || c == '\ufeff' ||
  c == '\u1680' || (0x2000 ≤ c.toNat && c.toNat ≤ 0x200a) ||
  c == '\u2028' || c == '\u2029' || c == '\u202f' ||
  c == '\u205f' || c == '\u3000'

/-- ECMAScript line terminators, which `.` does not match. -/
def isLineTerm (c : Char) : Bool :=
  c == '\n' || c == '\r' || c == '\u2028' || c == '\u2029'

/-- Case-insensitive character comparison (the `i` flag). -/
def charEqCI (a b : Char) : Bool := a.toLower == b.toLower

/-- Strip `trigger` from the front of `s` case-insensitively; `some rest` on
success. -/
def stripCI : List Char → List Char → Option (List Char)
  | [], s => some s
  | _ :: _, [] => none
  | t :: ts, c :: cs => if charEqCI t c then stripCI ts cs else none

/-- One regex match: `full` is `match[0]`, `capture` is `match[1]`. -/
structure RegexMatch where
  full : List Char
  capture : List Char
deriving DecidableEq

/-- Whether `(.+)` can start here: a character that is not a line terminator. -/
def canStartDot : List Char → Bool
  | [] => false
  | c :: _ => !isLineTerm c

/-- Backtracking split between the greedy `\s+` and the `(.+)` that follows.
`rws` is the whitespace run in reverse; the engine first lets `\s+` keep the
whole run and gives characters back from its end until `.` can match.
Returns the whitespace kept by `\s+` and the tail where the capture starts. -/
def splitCaptureRev : List Char → List Char → Option (List Char × List Char)
  | [], _ => none
  | w :: rws, rest =>
    if canStartDot rest then some ((w :: rws).reverse, rest)
    else splitCaptureRev rws (w :: rest)

/-- Attempt to match `trigger\s+(.+)` exactly at the head of `s`. On success
returns the match and the remainder of the input after it. -/
def matchHere (trigger s : List Char) : Option (RegexMatch × List Char) :=
  match stripCI trigger s with
  | none => none
  | some rest1 =>
    let ws := rest1.takeWhile isJsSpace
    let rest2 := rest1.dropWhile isJsSpace
    match splitCaptureRev ws.reverse rest2 with
    | none => none
    | some (wsKept, capStart) =>
      let cap := capStart.takeWhile (fun c => !isLineTerm c)
      some (⟨s.take trigger.length ++ wsKept ++ cap, cap⟩, capStart.drop cap.length)

/-- Leftmost match of `trigger\s+(.+)` in `s` (the engine retries at every
position after a failed attempt). -/
def firstMatch (trigger : List Char) : List Char → Option (RegexMatch × List Char)
  | [] => none
  | c :: cs =>
    match matchHere trigger (c :: cs) with
    | some r => some r
    | none => firstMatch trigger cs

/-- All matches in order, continuing after the end of each match
(`String.prototype.matchAll` with the `g` flag). Every match consumes at
least one character, so fuel `|s| + 1` is never exhausted. -/
def allMatchesAux (trigger : List Char) : Nat → List Char → List RegexMatch
  | 0, _ => []
  | fuel + 1, s =>
    match firstMatch trigger s with
    | none => []
    | some (m, rest) => m :: allMatchesAux trigger fuel rest

/-- `String.matchAll` for the pattern `/trigger\s+(.+)/gi`. -/
def allMatches (trigger s : String) : List RegexMatch :=
  allMatchesAux trigger.data (s.data.length + 1) s.data

/-! ### `ClawdHooks.extractObservations` (integrations/clawd/hooks.ts) -/

/-- A captured observation (`MemoryEntry` in hooks.ts).  The generated id
`obs_${Date.now()}_${random}` is nondeterministic; we parameterize over an
id supply indexed by push order. -/
structure MemoryEntry where
  id : String
  content : String
  type : String
  timestamp : String
  channel : String
deriving DecidableEq

/-- The fields of `ClawdMessage` the extractor reads. -/
structure ClawdMessage where
  content : String
  channel : String

/-- The field of `ClawdResponse` the extractor reads. -/
structure ClawdResponse where
  content : String

/-- Triggers of the preference patterns, run over the input message. -/
def preferencePatterns : List String := ["i prefer", "i like", "i always", "i never"]

/-- Triggers of the decision patterns, run over the response. -/
def decisionPatterns : List String := ["i'll", "let's", "we should"]

/-- Build one `MemoryEntry` per match, ids taken from `idFor` in push order
starting at index `start` (`content` is `match[0]`). -/
def buildEntries (idFor : Nat → String) (ty ts ch : String) :
    Nat → List RegexMatch → List MemoryEntry
  | _, [] => []
  | i, m :: ms =>
    ⟨idFor i, String.mk m.full, ty, ts, ch⟩ :: buildEntries idFor ty ts ch (i + 1) ms

/-- All decision-pattern matches over the response text, before the length
window is applied. -/
def decisionMatches (respContent : String) : List RegexMatch :=
  decisionPatterns.flatMap (fun p => allMatches p respContent)

/-- All preference-pattern matches over the message text. -/
def preferenceMatches (msgContent : String) : List RegexMatch :=
  preferencePatterns.flatMap (fun p => allMatches p msgContent)

/-- `ClawdHooks.extractObservations`: preference matches over the message
(no length filter), then decision matches over the response kept only when
`match[1].length > 20 && match[1].length < 200`. -/
def extractObservations (idFor : Nat → String) (ts : String)
    (message : ClawdMessage) (response : ClawdResponse) : List MemoryEntry :=
  let prefMs := preferenceMatches message.content
  let decMs := (decisionMatches response.content).filter
    (fun m => 20 < m.capture.length && m.capture.length < 200)
  buildEntries idFor "preference" ts message.channel 0 prefMs ++
    buildEntries idFor "decision" ts message.channel prefMs.length decMs

/-! ### ClawdHooks session state (integrations/clawd/hooks.ts)

JavaScript `Map` modelled as an association list in insertion order:
`set` updates in place or appends, `delete` removes the entry. -/

/-- JS `Map.prototype.set`. -/
def mapSet {κ α : Type} [BEq κ] : List (κ × α) → κ → α → List (κ × α)
  | [], k, v => [(k, v)]
  | (k0, v0) :: rest, k, v =>
    if k0 == k then (k, v) :: rest else (k0, v0) :: mapSet rest k v

/-- JS `Map.prototype.get`. -/
def mapGet {κ α : Type} [BEq κ] (m : List (κ × α)) (k : κ) : Option α :=
  (m.find? (fun p => p.1 == k)).map (·.2)

/-- JS `Map.prototype.delete` (without the returned Bool). -/
def mapDelete {κ α : Type} [BEq κ] (m : List (κ × α)) (k : κ) : List (κ × α) :=
  m.filter (fun p => !(p.1 == k))

/-- The mutable fields of `ClawdHooks`. -/
structure HookState where
  currentSession : Option String
  sessionMemories : List (String × List MemoryEntry)
deriving DecidableEq

/-- `ClawdHooks.loadSessionMemories` returns `[]` in the source. -/
def loadSessionMemories : List MemoryEntry := []

/-- `ClawdHooks.onSessionStart`. -/
def onSessionStart (st : HookState) (sessionId : String) : HookState :=
  { currentSession := some sessionId,
    sessionMemories := mapSet st.sessionMemories sessionId loadSessionMemories }

/-- `ClawdHooks.saveMemory`: appends the entry to the current session's list. -/
def saveMemory (st : HookState) (entry : MemoryEntry) : HookState :=
  match st.currentSession with
  | none => st
  | some sid =>
    let memories := (mapGet st.sessionMemories sid).getD []
    { st with sessionMemories := mapSet st.sessionMemories sid (memories ++ [entry]) }

/-- `ClawdHooks.onResponse`: extract observations and save each. -/
def onResponse (idFor : Nat → String) (ts : String) (st : HookState)
    (message : ClawdMessage) (response : ClawdResponse) : HookState :=
  (extractObservations idFor ts message response).foldl saveMemory st

/-- `ClawdHooks.onSessionEnd`: the Bool is whether `generateSessionSummary`
was called (`memories.length > 5`); the session's entry is then deleted. -/
def onSessionEnd (st : HookState) (sessionId : String) : Bool × HookState :=
  let memories := (mapGet st.sessionMemories sessionId).getD []
  (decide (5 < memories.length),
   { currentSession := none, sessionMemories := mapDelete st.sessionMemories sessionId })

/-! ### `fetchWithRetry` (integrations/clawd/index.ts)

One call to `fetch` is summarized by an outcome supplied per attempt number:
it resolves OK, resolves non-OK (the code throws `HTTP ${status}: ${text}`),
or rejects with an error (a timeout rejects with name `AbortError`). -/

/-- A thrown JavaScript error, as far as the retry code inspects it. -/
structure JsError where
  name : String
  message : String
deriving DecidableEq

/-- What one `fetch` attempt does. -/
inductive FetchOutcome where
  | ok
  | httpError (status : Nat) (body : String)
  | thrown (e : JsError)
deriving DecidableEq

/-- `MAX_RETRIES` constant. -/
def MAX_RETRIES : Nat := 3

/-- `RETRY_DELAY_MS` constant. -/
def RETRY_DELAY_MS : Nat := 1000

/-- `REQUEST_TIMEOUT_MS` constant. -/
def REQUEST_TIMEOUT_MS : Nat := 30000

/-- The error a timeout produces (`AbortController.abort`). -/
def abortError : JsError := ⟨"AbortError", "This operation was aborted"⟩

/-- Whether `sub` occurs as a contiguous sublist of `l`. -/
def listContainsSub : List Char → List Char → Bool
  | l, sub =>
    if sub.isPrefixOf l then true
    else
      match l with
      | [] => false
      | _ :: t => listContainsSub t sub

/-- JS `String.prototype.includes`. -/
def strIncludes (s sub : String) : Bool := listContainsSub s.data sub.data

/-- What `fetchWithRetry` returns, together with the attempts made and the
sleeps taken between attempts. -/
structure RetryResult where
  success : Bool
  errMsg : Option String
  attemptsMade : Nat
  delays : List Nat
deriving DecidableEq

/-- The error attempt number `attempt` throws inside the `try` block, if
any: a non-OK response throws `HTTP ${status}: ${text}`, and a rejected
`fetch` throws its own error. -/
def attemptError (oracle : Nat → FetchOutcome) (attempt : Nat) : Option JsError :=
  match oracle attempt with
  | .ok => none
  | .httpError status body => some ⟨"Error", "HTTP " ++ toString status ++ ": " ++ body⟩
  | .thrown e => some e

/-- The body of the `for (let attempt = 1; attempt <= MAX_RETRIES; ...)`
loop. `remaining` is structural fuel equal to `MAX_RETRIES + 1 - attempt`;
the zero case is the loop exiting with the fall-through failure return. -/
def fetchLoop (oracle : Nat → FetchOutcome) (timeout : Nat) :
    Nat → Nat → Option JsError → List Nat → RetryResult
  | 0, attempt, lastError, delays =>
    { success := false,
      errMsg := some ((lastError.map (·.message)).getD "Unknown error after max retries"),
      attemptsMade := attempt - 1, delays := delays }
  | remaining + 1, attempt, _lastError, delays =>
    match attemptError oracle attempt with
    | none => { success := true, errMsg := none, attemptsMade := attempt, delays := delays }
    | some e =>
      if e.name == "AbortError" then
        -- timeouts return at once, with no retry
        { success := false,
          errMsg := some ("Request timed out after " ++ toString timeout ++ "ms"),
          attemptsMade := attempt, delays := delays }
      else if strIncludes e.message "ECONNREFUSED" || strIncludes e.message "fetch failed" then
        if attempt < MAX_RETRIES then
          fetchLoop oracle timeout remaining (attempt + 1) (some e)
            (delays ++ [RETRY_DELAY_MS * attempt])
        else
          { success := false,
            errMsg := some "MoltBrain service not available",
            attemptsMade := attempt, delays := delays }
      else
        if attempt < MAX_RETRIES then
          fetchLoop oracle timeout remaining (attempt + 1) (some e)
            (delays ++ [RETRY_DELAY_MS * attempt])
        else
          { success := false, errMsg := some e.message,
            attemptsMade := attempt, delays := delays }

/-- `fetchWithRetry`, parameterized by the per-attempt outcomes. -/
def fetchWithRetry (oracle : Nat → FetchOutcome) (timeout : Nat) : RetryResult :=
  fetchLoop oracle timeout MAX_RETRIES 1 none []

/-- Outcomes listed per attempt (attempt `k` reads index `k - 1`). -/
def oracleOf (outcomes : List FetchOutcome) : Nat → FetchOutcome :=
  fun attempt => outcomes.getD (attempt - 1) .ok

/-! ### `MoltBookHandlers.handleRequest` (integrations/moltbook/handlers.ts)

The dispatch is synchronous; every domain handler is an async method whose
returned promise `handleRequest` passes on **without** `await`, so a
rejection escapes `handleRequest` instead of being caught by its
`catch (error)` block.  We model the boundary as `Except JsError` and
record the client calls the handler makes. -/

/-- A JSON-RPC id: `string | number`. -/
inductive MBId where
  | str (s : String)
  | num (n : Int)
deriving DecidableEq

/-- The parameter fields the handlers inspect; a JSON request may omit any
of them (or omit `params` entirely). -/
structure MBParams where
  title : Option String := none
  content : Option String := none
  submolt : Option String := none
  postId : Option String := none
  submoltName : Option String := none
  query : Option String := none
  name : Option String := none
  description : Option String := none
  agentId : Option String := none
deriving DecidableEq

/-- An inbound request (already parsed JSON). -/
structure MCPRequest where
  id : MBId
  method : String
  params : Option MBParams := none
deriving DecidableEq

/-- A JSON-RPC error object. -/
structure MCPError where
  code : Int
  message : String
deriving DecidableEq

/-- The shape of a successful `result`, over an abstract type `α` of values
the MoltBook client returns. -/
inductive MBResult (α : Type) where
  | initResult
  | successTrue
  | wrap (field : String) (v : α)
  | raw (v : α)
deriving DecidableEq

/-- An outbound response: `result` or `error`. -/
structure MCPResponse (α : Type) where
  id : MBId
  result : Option (MBResult α) := none
  error : Option MCPError := none
deriving DecidableEq

/-- The client calls a handler can make. -/
inductive ClientOp where
  | createPost (p : MBParams)
  | getPosts (p : Option MBParams)
  | getPost (postId : String)
  | addComment (p : MBParams)
  | listSubmolts
  | getSubmolt (submoltName : String)
  | search (p : MBParams)
  | registerAgent (p : MBParams)
  | getAgent (agentId : String)
deriving DecidableEq

/-- The MoltBook client: each call settles with a value or a thrown error. -/
def MBEnv (α : Type) : Type := ClientOp → Except JsError α

/-- The mutable state of `MoltBookHandlers`. -/
structure HandlerState where
  initialized : Bool
deriving DecidableEq

/-- `MoltBookHandlers.errorResponse`. -/
def errorResponse {α : Type} (id : MBId) (code : Int) (message : String) : MCPResponse α :=
  { id := id, result := none, error := some ⟨code, message⟩ }

/-- JS truthiness of an optional string field (`!params?.x` rejects both a
missing field and an empty string). -/
def truthy : Option String → Bool
  | none => false
  | some s => !(s == "")

/-- Optional chaining `params?.f`. -/
def pfield (params : Option MBParams) (f : MBParams → Option String) : Option String :=
  match params with
  | none => none
  | some p => f p

/-- A domain handler's client call: an `ok` value becomes a `result`
response; a rejection is passed through un-awaited, escaping the handler. -/
def callClient {α : Type} (env : MBEnv α) (st : HandlerState) (id : MBId)
    (op : ClientOp) (mk : α → MBResult α) :
    HandlerState × Except JsError (MCPResponse α) × List ClientOp :=
  match env op with
  | .ok v => (st, .ok { id := id, result := some (mk v), error := none }, [op])
  | .error e => (st, .error e, [op])

/-- `MoltBookHandlers.handleRequest`: the init gate, then the method switch.
The third component lists the client calls executed. -/
def handleRequest {α : Type} (env : MBEnv α) (st : HandlerState) (req : MCPRequest) :
    HandlerState × Except JsError (MCPResponse α) × List ClientOp :=
  let id := req.id
  if req.method != "initialize" && !st.initialized then
    (st, .ok (errorResponse id (-32002) "Server not initialized"), [])
  else
    match req.method with
    | "initialize" =>
      ({ initialized := true }, .ok { id := id, result := some .initResult, error := none }, [])
    | "moltbook/create_post" =>
      if !truthy (pfield req.params (·.title)) || !truthy (pfield req.params (·.content)) ||
          !truthy (pfield req.params (·.submolt)) then
        (st, .ok (errorResponse id (-32602) "Missing required parameters: title, content, submolt"), [])
      else
        callClient env st id (.createPost (req.params.getD {})) (.wrap "post")
    | "moltbook/get_posts" =>
      callClient env st id (.getPosts req.params) (.wrap "posts")
    | "moltbook/get_post" =>
      if !truthy (pfield req.params (·.postId)) then
        (st, .ok (errorResponse id (-32602) "Missing required parameter: postId"), [])
      else
        callClient env st id (.getPost ((pfield req.params (·.postId)).getD "")) (.wrap "post")
    | "moltbook/add_comment" =>
      if !truthy (pfield req.params (·.postId)) || !truthy (pfield req.params (·.content)) then
        (st, .ok (errorResponse id (-32602) "Missing required parameters: postId, content"), [])
      else
        callClient env st id (.addComment (req.params.getD {})) (.wrap "comment")
    | "moltbook/list_submolts" =>
      callClient env st id .listSubmolts (.wrap "submolts")
    | "moltbook/get_submolt" =>
      if !truthy (pfield req.params (·.submoltName)) then
        (st, .ok (errorResponse id (-32602) "Missing required parameter: submoltName"), [])
      else
        callClient env st id (.getSubmolt ((pfield req.params (·.submoltName)).getD "")) (.wrap "submolt")
    | "moltbook/search" =>
      if !truthy (pfield req.params (·.query)) then
        (st, .ok (errorResponse id (-32602) "Missing required parameter: query"), [])
      else
        callClient env st id (.search (req.params.getD {})) .raw
    | "moltbook/register_agent" =>
      if !truthy (pfield req.params (·.name)) || !truthy (pfield req.params (·.description)) then
        (st, .ok (errorResponse id (-32602) "Missing required parameters: name, description"), [])
      else
        callClient env st id (.registerAgent (req.params.getD {})) (.wrap "agent")
    | "moltbook/get_agent" =>
      if !truthy (pfield req.params (·.agentId)) then
        (st, .ok (errorResponse id (-32602) "Missing required parameter: agentId"), [])
      else
        callClient env st id (.getAgent ((pfield req.params (·.agentId)).getD "")) (.wrap "agent")
    | "shutdown" =>
      ({ initialized := false }, .ok { id := id, result := some .successTrue, error := none }, [])
    | other =>
      (st, .ok (errorResponse id (-32601) ("Unknown method: " ++ other)), [])

/-! ### `FavoritesStore` (src/favorites/FavoritesStore.ts) -/

/-- One favorite entry. -/
structure FavoriteItem where
  observationId : Nat
  note : Option String
  createdAt : Nat
deriving DecidableEq

/-- The store: a JS `Map` keyed by observation id, plus the `maxItems`
option (default 1000). -/
structure FavoritesStore where
  maxItems : Nat
  favorites : List (Nat × FavoriteItem)
deriving DecidableEq

/-- `getAll`: `Array.from(map.values())`, insertion order. -/
def FavoritesStore.getAll (s : FavoritesStore) : List FavoriteItem :=
  s.favorites.map (·.2)

/-- Stable insertion of `x` into a newest-first list: `x` goes before the
first strictly older entry, after entries of its own age. -/
def insertByDateDesc (x : FavoriteItem) : List FavoriteItem → List FavoriteItem
  | [] => [x]
  | y :: ys =>
    if y.createdAt ≤ x.createdAt then x :: y :: ys else y :: insertByDateDesc x ys

/-- Stable newest-first sort (insertion sort; `Array.prototype.sort` with
comparator `b.createdAt - a.createdAt` is stable, and every stable sort by
that key gives the same list). -/
def sortByDateDesc : List FavoriteItem → List FavoriteItem
  | [] => []
  | x :: xs => insertByDateDesc x (sortByDateDesc xs)

/-- `getSortedByDate`: newest first. -/
def FavoritesStore.getSortedByDate (s : FavoritesStore) : List FavoriteItem :=
  sortByDateDesc s.getAll

/-- `enforceLimit`: when over `maxItems`, delete the entries past the first
`maxItems` of the newest-first ordering (the oldest ones). -/
def FavoritesStore.enforceLimit (s : FavoritesStore) : FavoritesStore :=
  if s.favorites.length ≤ s.maxItems then s
  else
    let toRemove := s.getSortedByDate.drop s.maxItems
    { s with favorites := toRemove.foldl (fun fs it => mapDelete fs it.observationId) s.favorites }

/-- `add`: set the entry (`createdAt := Date.now()`), then `enforceLimit`. -/
def FavoritesStore.add (s : FavoritesStore) (observationId : Nat)
    (note : Option String) (now : Nat) : FavoritesStore :=
  FavoritesStore.enforceLimit
    { s with favorites := mapSet s.favorites observationId ⟨observationId, note, now⟩ }

/-- `remove`: delete the entry; returns whether it existed. -/
def FavoritesStore.remove (s : FavoritesStore) (observationId : Nat) :
    Bool × FavoritesStore :=
  ((mapGet s.favorites observationId).isSome,
   { s with favorites := mapDelete s.favorites observationId })

/-- `isFavorite`. -/
def FavoritesStore.isFavorite (s : FavoritesStore) (observationId : Nat) : Bool :=
  (mapGet s.favorites observationId).isSome

/-- `clear`. -/
def FavoritesStore.clear (s : FavoritesStore) : FavoritesStore :=
  { s with favorites := [] }

/-! ### Relational schema (migrations 001–003)

State-transition model of the declared SQL semantics: `observations`
references `sessions(id)` with `ON DELETE CASCADE`; `observation_tags` and
`favorites` reference `observations(id)` with `ON DELETE CASCADE`; the
`observations_ai` / `observations_ad` / `observations_au` triggers keep the
`observations_fts` shadow table in step with every observation insert,
delete and update (cascaded deletes included). -/

/-- A row of `observations` (the columns the claims concern). -/
structure Obs where
  id : Nat
  sessionId : Nat
  title : String
  subtitle : String
  narrative : String
  facts : String
  concepts : String
deriving DecidableEq

/-- A row of the `observations_fts` shadow table. -/
structure FtsRow where
  rowid : Nat
  title : String
  subtitle : String
  narrative : String
  facts : String
  concepts : String
deriving DecidableEq

/-- The store: `sessions` and `tags` reduced to their primary keys,
`observation_tags` rows as (observation_id, tag_id), `favorites` rows as
(observation_id, note). -/
structure Db where
  sessions : List Nat
  observations : List Obs
  observationTags : List (Nat × Nat)
  favorites : List (Nat × Option String)
  fts : List FtsRow
deriving DecidableEq

/-- The columns the `observations_ai` trigger copies into the shadow row. -/
def ftsProj (o : Obs) : FtsRow :=
  ⟨o.id, o.title, o.subtitle, o.narrative, o.facts, o.concepts⟩

/-- Primary keys of the observation rows. -/
def obsIds (db : Db) : List Nat := db.observations.map (·.id)

/-- `INSERT INTO observations`: the FK and PK constraints must hold, and
the `observations_ai` trigger appends the shadow row. -/
def insertObservation (db : Db) (o : Obs) : Option Db :=
  if db.sessions.contains o.sessionId && !((obsIds db).contains o.id) then
    some { db with observations := db.observations ++ [o], fts := db.fts ++ [ftsProj o] }
  else none

/-- `UPDATE observations SET title = ..., ... WHERE id = oid`: when a row
matches, the `observations_au` trigger deletes the old shadow row and
inserts the new one. -/
def updateObservation (db : Db) (oid : Nat)
    (title subtitle narrative facts concepts : String) : Db :=
  if db.observations.any (fun o => o.id == oid) then
    { db with
      observations := db.observations.map (fun o =>
        if o.id == oid then
          { o with title := title, subtitle := subtitle, narrative := narrative,
                   facts := facts, concepts := concepts }
        else o),
      fts := db.fts.filter (fun r => !(r.rowid == oid)) ++
        [⟨oid, title, subtitle, narrative, facts, concepts⟩] }
  else db

/-- `DELETE FROM observations WHERE id = oid`: the FK cascades remove the
row's tag associations and favorite entry, and the `observations_ad`
trigger removes the shadow row. -/
def deleteObservation (db : Db) (oid : Nat) : Db :=
  { db with
    observations := db.observations.filter (fun o => !(o.id == oid)),
    observationTags := db.observationTags.filter (fun t => !(t.1 == oid)),
    favorites := db.favorites.filter (fun f => !(f.1 == oid)),
    fts := db.fts.filter (fun r => !(r.rowid == oid)) }

/-- `DELETE FROM sessions WHERE id = sid`: cascades to the session's
observations, and through them to tag associations, favorites and shadow
rows. -/
def deleteSession (db : Db) (sid : Nat) : Db :=
  let dead := (db.observations.filter (fun o => o.sessionId == sid)).map (·.id)
  { sessions := db.sessions.filter (fun s => !(s == sid)),
    observations := db.observations.filter (fun o => !(o.sessionId == sid)),
    observationTags := db.observationTags.filter (fun t => !(dead.contains t.1)),
    favorites := db.favorites.filter (fun f => !(dead.contains f.1)),
    fts := db.fts.filter (fun r => !(dead.contains r.rowid)) }

/-- Referential integrity: no orphaned observation, tag-association or
favorite row. -/
def wfRefs (db : Db) : Prop :=
  (∀ o ∈ db.observations, o.sessionId ∈ db.sessions) ∧
  (∀ t ∈ db.observationTags, t.1 ∈ obsIds db) ∧
  (∀ f ∈ db.favorites, f.1 ∈ obsIds db)

/-- The shadow index holds exactly the projections of the observation rows. -/
def ftsSynced (db : Db) : Prop :=
  db.fts.Perm (db.observations.map ftsProj)

/-- Observation primary keys are unique. -/
def wfIds (db : Db) : Prop :=
  (db.observations.map (·.id)).Nodup

/-- A concrete well-formed store used by the witnesses: two sessions, one
observation each, a tag association and a favorite on observation 1, and a
shadow index in step. -/
def dbExample : Db :=
  { sessions := [1, 2],
    observations := [⟨1, 1, "t1", "s1", "n1", "f1", "c1"⟩, ⟨2, 2, "t2", "s2", "n2", "f2", "c2"⟩],
    observationTags := [(1, 100), (2, 100)],
    favorites := [(1, some "note")],
    fts := [⟨1, "t1", "s1", "n1", "f1", "c1"⟩, ⟨2, "t2", "s2", "n2", "f2", "c2"⟩] }

/-! ## Helper lemmas -/

/-- Every entry a `buildEntries` run produces carries the type it was built
with. -/
theorem buildEntries_type_eq (idFor : Nat → String) (ty ts ch : String) :
    ∀ (i : Nat) (ms : List RegexMatch) (e : MemoryEntry),
      e ∈ buildEntries idFor ty ts ch i ms → e.type = ty := by
  intro i ms
  induction ms generalizing i with
  | nil => simp [buildEntries]
  | cons m rest ih =>
    intro e he
    simp only [buildEntries, List.mem_cons] at he
    rcases he with rfl | he
    · rfl
    · exact ih _ e he

/-- Filtering `buildEntries` output by a different type yields nothing. -/
theorem buildEntries_filter_ne (idFor : Nat → String) (ty ts ch oth : String)
    (h : ty ≠ oth) (i : Nat) (ms : List RegexMatch) :
    (buildEntries idFor ty ts ch i ms).filter (fun e => e.type == oth) = [] := by
  rw [List.filter_eq_nil_iff]
  intro e he
  have := buildEntries_type_eq idFor ty ts ch i ms e he
  simp [this, h]

/-- Filtering `buildEntries` output by its own type keeps everything. -/
theorem buildEntries_filter_self (idFor : Nat → String) (ty ts ch : String)
    (i : Nat) (ms : List RegexMatch) :
    (buildEntries idFor ty ts ch i ms).filter (fun e => e.type == ty) =
      buildEntries idFor ty ts ch i ms := by
  rw [List.filter_eq_self]
  intro e he
  simp [buildEntries_type_eq idFor ty ts ch i ms e he]

/-- `mapGet` after `mapSet` at a different key is unchanged. -/
theorem mapGet_mapSet_ne {α : Type} (k j : Nat) (v : α) (h : j ≠ k) :
    ∀ m : List (Nat × α), mapGet (mapSet m k v) j = mapGet m j := by
  have hkj : (k == j) = false := by simpa using Ne.symm h
  intro m
  induction m with
  | nil => simp [mapSet, mapGet, List.find?, hkj]
  | cons p rest ih =>
    by_cases hp : p.1 = k
    · simp [mapSet, mapGet, hp, List.find?, hkj]
    · simp only [mapSet]
      rw [if_neg (by simpa using hp)]
      by_cases hj : p.1 = j
      · simp [mapGet, List.find?, hj]
      · simp only [mapGet, List.find?] at ih ⊢
        rw [show (p.1 == j) = false by simpa using hj]
        exact ih

/-- A successful attempt ends the loop with `success := true`. -/
theorem fetchLoop_ok (oracle : Nat → FetchOutcome) (timeout remaining attempt : Nat)
    (le : Option JsError) (delays : List Nat)
    (h : attemptError oracle attempt = none) :
    fetchLoop oracle timeout (remaining + 1) attempt le delays =
      { success := true, errMsg := none, attemptsMade := attempt, delays := delays } := by
  simp [fetchLoop, h]

/-- An `AbortError` returns at once with the timeout message. -/
theorem fetchLoop_abort (oracle : Nat → FetchOutcome) (timeout remaining attempt : Nat)
    (le : Option JsError) (delays : List Nat) (e : JsError)
    (h : attemptError oracle attempt = some e) (hn : e.name = "AbortError") :
    fetchLoop oracle timeout (remaining + 1) attempt le delays =
      { success := false,
        errMsg := some ("Request timed out after " ++ toString timeout ++ "ms"),
        attemptsMade := attempt, delays := delays } := by
  simp [fetchLoop, h, hn]

/-- Any other error before the attempt ceiling sleeps `RETRY_DELAY_MS *
attempt` and retries, whichever error class it falls into. -/
theorem fetchLoop_retry (oracle : Nat → FetchOutcome) (timeout remaining attempt : Nat)
    (le : Option JsError) (delays : List Nat) (e : JsError)
    (h : attemptError oracle attempt = some e) (hn : e.name ≠ "AbortError")
    (hlt : attempt < MAX_RETRIES) :
    fetchLoop oracle timeout (remaining + 1) attempt le delays =
      fetchLoop oracle timeout remaining (attempt + 1) (some e)
        (delays ++ [RETRY_DELAY_MS * attempt]) := by
  have hn' : (e.name == "AbortError") = false := by simpa using hn
  simp only [fetchLoop, h, hn', Bool.false_eq_true, if_false]
  by_cases hc : (strIncludes e.message "ECONNREFUSED" || strIncludes e.message "fetch failed") = true
  · simp [hc, hlt]
  · simp [Bool.not_eq_true] at hc
    simp [hc, hlt]

/-- Any other error at the attempt ceiling ends the loop at that attempt
with the sleeps taken so far. -/
theorem fetchLoop_stop (oracle : Nat → FetchOutcome) (timeout remaining attempt : Nat)
    (le : Option JsError) (delays : List Nat) (e : JsError)
    (h : attemptError oracle attempt = some e) (hn : e.name ≠ "AbortError")
    (hge : ¬attempt < MAX_RETRIES) :
    (fetchLoop oracle timeout (remaining + 1) attempt le delays).success = false ∧
    (fetchLoop oracle timeout (remaining + 1) attempt le delays).attemptsMade = attempt ∧
    (fetchLoop oracle timeout (remaining + 1) attempt le delays).delays = delays := by
  have hn' : (e.name == "AbortError") = false := by simpa using hn
  simp only [fetchLoop, h, hn', Bool.false_eq_true, if_false]
  by_cases hc : (strIncludes e.message "ECONNREFUSED" || strIncludes e.message "fetch failed") = true
  · simp [hc, hge]
  · simp [Bool.not_eq_true] at hc
    simp [hc, hge]

/-- Loop invariant: the attempt count never exceeds `MAX_RETRIES` and the
sleeps form the linear schedule `RETRY_DELAY_MS * attempt`. -/
theorem fetchLoop_bounds (oracle : Nat → FetchOutcome) (timeout : Nat) :
    ∀ (remaining attempt : Nat) (le : Option JsError) (delays : List Nat),
      1 ≤ attempt → attempt + remaining = MAX_RETRIES + 1 →
      (fetchLoop oracle timeout remaining attempt le delays).attemptsMade ≤ MAX_RETRIES ∧
      ∃ k : Nat, (fetchLoop oracle timeout remaining attempt le delays).delays =
        delays ++ (List.range' attempt k).map (fun i => RETRY_DELAY_MS * i) := by
  intro remaining
  induction remaining with
  | zero =>
    intro attempt le delays h1 h2
    refine ⟨?_, 0, ?_⟩
    · simp only [fetchLoop, MAX_RETRIES] at h2 ⊢
      omega
    · simp [fetchLoop]
  | succ n ih =>
    intro attempt le delays h1 h2
    rcases h : attemptError oracle attempt with _ | e
    · rw [fetchLoop_ok oracle timeout n attempt le delays h]
      refine ⟨?_, 0, by simp⟩
      simp only [MAX_RETRIES] at h2 ⊢
      omega
    · by_cases hn : e.name = "AbortError"
      · rw [fetchLoop_abort oracle timeout n attempt le delays e h hn]
        refine ⟨?_, 0, by simp⟩
        simp only [MAX_RETRIES] at h2 ⊢
        omega
      · by_cases hlt : attempt < MAX_RETRIES
        · rw [fetchLoop_retry oracle timeout n attempt le delays e h hn hlt]
          obtain ⟨hb, k, hk⟩ :=
            ih (attempt + 1) (some e) (delays ++ [RETRY_DELAY_MS * attempt])
              (by omega) (by omega)
          refine ⟨hb, k + 1, ?_⟩
          rw [hk, List.range'_succ]
          simp
        · obtain ⟨-, ha, hd⟩ := fetchLoop_stop oracle timeout n attempt le delays e h hn hlt
          refine ⟨?_, 0, by simp [hd]⟩
          rw [ha]
          omega

/-! ## Claim theorems -/

/-- C4: a call failing with HTTP 503 twice and succeeding on the third
attempt makes exactly 3 attempts, sleeps `RETRY_DELAY_MS * attempt`
between them, and ends successfully; and for every sequence of outcomes
the attempt count is bounded by `MAX_RETRIES` and the sleeps follow the
linearly increasing schedule — never an unbounded loop. -/
theorem retry_bounded_linear_backoff :
    (∀ body : String,
      fetchWithRetry (oracleOf [.httpError 503 body, .httpError 503 body, .ok])
          REQUEST_TIMEOUT_MS =
        { success := true, errMsg := none, attemptsMade := 3,
          delays := [RETRY_DELAY_MS * 1, RETRY_DELAY_MS * 2] }) ∧
    (∀ (oracle : Nat → FetchOutcome) (timeout : Nat),
      (fetchWithRetry oracle timeout).attemptsMade ≤ MAX_RETRIES ∧
      ∃ k : Nat, (fetchWithRetry oracle timeout).delays =
        (List.range' 1 k).map (fun i => RETRY_DELAY_MS * i)) := by
  constructor
  · intro body
    show fetchLoop (oracleOf [.httpError 503 body, .httpError 503 body, .ok])
        REQUEST_TIMEOUT_MS (2 + 1) 1 none [] = _
    rw [fetchLoop_retry (oracleOf [.httpError 503 body, .httpError 503 body, .ok])
        REQUEST_TIMEOUT_MS 2 1 none [] ⟨"Error", "HTTP 503: " ++ body⟩ rfl
        (show ("Error" : String) ≠ "AbortError" by decide) (by decide)]
    rw [fetchLoop_retry (oracleOf [.httpError 503 body, .httpError 503 body, .ok])
        REQUEST_TIMEOUT_MS 1 2 (some ⟨"Error", "HTTP 503: " ++ body⟩)
        ([] ++ [RETRY_DELAY_MS * 1]) ⟨"Error", "HTTP 503: " ++ body⟩ rfl
        (show ("Error" : String) ≠ "AbortError" by decide) (by decide)]
    rw [fetchLoop_ok (oracleOf [.httpError 503 body, .httpError 503 body, .ok])
        REQUEST_TIMEOUT_MS 0 3 (some ⟨"Error", "HTTP 503: " ++ body⟩)
        (([] ++ [RETRY_DELAY_MS * 1]) ++ [RETRY_DELAY_MS * 2]) rfl]
    norm_num
  · intro oracle timeout
    have := fetchLoop_bounds oracle timeout MAX_RETRIES 1 none [] (by decide) (by decide)
    simpa [fetchWithRetry] using this

/-- C3: every JSON-RPC request whose method is not `initialize`, arriving
while the handler is uninitialized, gets the implementation's
"not initialized" error code `-32002`; no client call is executed and the
state is unchanged, whatever the method and whatever the client would do. -/
theorem rpc_uninitialized_gate {α : Type} (env : MBEnv α) (st : HandlerState)
    (req : MCPRequest) (hst : st.initialized = false)
    (hm : req.method ≠ "initialize") :
    handleRequest env st req =
      (st, .ok (errorResponse req.id (-32002) "Server not initialized"), []) := by
  have hcond : (req.method != "initialize" && !st.initialized) = true := by
    simp [hst, hm]
  unfold handleRequest
  rw [if_pos hcond]

/-- Witness for C3 at a concrete uninitialized request. -/
theorem rpc_uninitialized_gate_witness :
    (HandlerState.mk false).initialized = false ∧
    ("moltbook/create_post" : String) ≠ "initialize" ∧
    handleRequest (α := Unit) (fun _ => .ok ()) ⟨false⟩
        ⟨.num 1, "moltbook/create_post", none⟩ =
      (⟨false⟩, .ok (errorResponse (.num 1) (-32002) "Server not initialized"), []) :=
  ⟨rfl, by decide,
    rpc_uninitialized_gate (fun _ => .ok ()) ⟨false⟩
      ⟨.num 1, "moltbook/create_post", none⟩ rfl (by decide)⟩

/-- C10: at the failing input — an initialized handler, a well-formed
`moltbook/create_post` request with all required parameters, and a client
whose `createPost` rejects with an error "boom" — `handleRequest` lets the
rejection escape (the domain handler's promise is returned without
`await`), instead of resolving to a `-32603` response echoing the id. -/
theorem create_post_rejection_escapes :
    handleRequest (α := Unit) (fun _ => .error ⟨"Error", "boom"⟩) ⟨true⟩
        ⟨.num 1, "moltbook/create_post",
          some { title := some "t", content := some "c", submolt := some "s" }⟩ =
      (⟨true⟩, .error ⟨"Error", "boom"⟩,
        [.createPost { title := some "t", content := some "c", submolt := some "s" }]) := by
  rfl

/-- C5 counterexample: a request whose first attempt times out is *not*
retried — `fetchWithRetry` returns a failure after exactly one attempt,
with no backoff sleeps. -/
theorem timeout_not_retried_cex :
    fetchWithRetry (oracleOf [.thrown abortError]) REQUEST_TIMEOUT_MS =
      { success := false, errMsg := some "Request timed out after 30000ms",
        attemptsMade := 1, delays := [] } := by
  decide

/-- C5 amended: connection-refused (`fetch failed`) errors are retried with
linearly increasing bounded backoff; an aborted (timed-out) request fails
fast after one attempt with no retry; HTTP-status client errors such as a
400 are also retried rather than failing fast. -/
theorem retry_error_classification :
    (fetchWithRetry (oracleOf [.thrown ⟨"TypeError", "fetch failed"⟩,
        .thrown ⟨"TypeError", "fetch failed"⟩, .ok]) REQUEST_TIMEOUT_MS =
      { success := true, errMsg := none, attemptsMade := 3,
        delays := [RETRY_DELAY_MS * 1, RETRY_DELAY_MS * 2] }) ∧
    (∀ timeout : Nat, fetchWithRetry (oracleOf [.thrown abortError]) timeout =
      { success := false,
        errMsg := some ("Request timed out after " ++ toString timeout ++ "ms"),
        attemptsMade := 1, delays := [] }) ∧
    (fetchWithRetry (oracleOf [.httpError 400 "Bad Request", .ok]) REQUEST_TIMEOUT_MS =
      { success := true, errMsg := none, attemptsMade := 2,
        delays := [RETRY_DELAY_MS * 1] }) := by
  refine ⟨by decide, fun timeout => rfl, by decide⟩

/-- C8: at session end a summary is generated iff the session captured at
least 6 observations (strictly more than the threshold 5); at 5 or fewer
it is skipped. -/
theorem session_end_summary_threshold (st : HookState) (sid : String) :
    ((onSessionEnd st sid).1 = true ↔
      6 ≤ ((mapGet st.sessionMemories sid).getD []).length) ∧
    (((mapGet st.sessionMemories sid).getD []).length ≤ 5 →
      (onSessionEnd st sid).1 = false) := by
  constructor
  · simp only [onSessionEnd, decide_eq_true_eq]
    omega
  · intro h
    simp only [onSessionEnd, decide_eq_false_iff_not]
    omega

/-- Witness for C8: a session with 5 captured observations skips the
summary. -/
theorem session_end_summary_threshold_witness :
    ((mapGet (HookState.mk (some "s")
        [("s", List.replicate 5 ⟨"i", "c", "t", "ts", "ch"⟩)]).sessionMemories
        "s").getD []).length ≤ 5 ∧
    (onSessionEnd ⟨some "s", [("s", List.replicate 5 ⟨"i", "c", "t", "ts", "ch"⟩)]⟩
        "s").1 = false :=
  ⟨by decide,
    (session_end_summary_threshold
      ⟨some "s", [("s", List.replicate 5 ⟨"i", "c", "t", "ts", "ch"⟩)]⟩ "s").2
      (by decide)⟩

/-- C2: the input message "I prefer tabs over spaces", whatever the
response, yields exactly one preference observation, whose narrative
content is exactly the matched sentence; no length window is applied. -/
theorem preference_capture (idFor : Nat → String) (ts ch : String)
    (resp : ClawdResponse) :
    (extractObservations idFor ts ⟨"I prefer tabs over spaces", ch⟩ resp).filter
        (fun e => e.type == "preference") =
      [⟨idFor 0, "I prefer tabs over spaces", "preference", ts, ch⟩] := by
  have hpref : preferenceMatches "I prefer tabs over spaces" =
      [⟨"I prefer tabs over spaces".data, "tabs over spaces".data⟩] := by decide
  simp only [extractObservations, List.filter_append, hpref]
  rw [buildEntries_filter_self, buildEntries_filter_ne idFor "decision" ts ch
    "preference" (by decide)]
  simp [buildEntries]

/-- C1 counterexample: a captured span of exactly 20 characters lies within
the closed window [20, 200], yet the extractor produces zero decision
observations for it (the source keeps only spans with
`length > 20 && length < 200`). -/
theorem decision_window_boundary_cex :
    ((decisionMatches "I'll aaaaaaaaaaaaaaaaaaaa").map (fun m => m.capture.length)
        = [20]) ∧
    extractObservations (fun _ => "obs") "ts" ⟨"", "ch"⟩
        ⟨"I'll aaaaaaaaaaaaaaaaaaaa"⟩ = [] := by
  decide

/-- C1 amended: a response with a single decision match yields one decision
observation iff the captured span is strictly longer than 20 and strictly
shorter than 200 characters; in particular "I'll do it." yields zero and
the 78-character JWT commitment yields exactly one. -/
theorem decision_length_window (idFor : Nat → String) (ts ch : String) :
    (∀ (msgC r : String) (m : RegexMatch), decisionMatches r = [m] →
      (extractObservations idFor ts ⟨msgC, ch⟩ ⟨r⟩).filter
          (fun e => e.type == "decision") =
        if 20 < m.capture.length ∧ m.capture.length < 200 then
          [⟨idFor (preferenceMatches msgC).length, String.mk m.full, "decision", ts, ch⟩]
        else []) ∧
    (∀ msgC : String,
      (extractObservations idFor ts ⟨msgC, ch⟩ ⟨"I'll do it."⟩).filter
        (fun e => e.type == "decision") = []) ∧
    (extractObservations idFor ts ⟨"", ch⟩
        ⟨"I'll implement the authentication module using JWT with refresh tokens and rotation"⟩).filter
        (fun e => e.type == "decision") =
      [⟨idFor 0,
        "I'll implement the authentication module using JWT with refresh tokens and rotation",
        "decision", ts, ch⟩] := by
  have main : ∀ (msgC r : String) (m : RegexMatch), decisionMatches r = [m] →
      (extractObservations idFor ts ⟨msgC, ch⟩ ⟨r⟩).filter
          (fun e => e.type == "decision") =
        if 20 < m.capture.length ∧ m.capture.length < 200 then
          [⟨idFor (preferenceMatches msgC).length, String.mk m.full, "decision", ts, ch⟩]
        else [] := by
    intro msgC r m h
    simp only [extractObservations, List.filter_append, h]
    rw [buildEntries_filter_ne idFor "preference" ts ch "decision" (by decide),
      buildEntries_filter_self]
    by_cases h1 : 20 < m.capture.length
    · by_cases h2 : m.capture.length < 200
      · rw [if_pos ⟨h1, h2⟩]
        simp [List.filter, h1, h2, buildEntries]
      · rw [if_neg (by tauto)]
        simp [List.filter, h1, h2, buildEntries]
    · rw [if_neg (by tauto)]
      simp [List.filter, h1, buildEntries]
  refine ⟨main, ?_, ?_⟩
  · intro msgC
    have h := main msgC "I'll do it." ⟨"I'll do it.".data, "do it.".data⟩ (by decide)
    rw [if_neg (by decide)] at h
    exact h
  · have h := main ""
      "I'll implement the authentication module using JWT with refresh tokens and rotation"
      ⟨"I'll implement the authentication module using JWT with refresh tokens and rotation".data,
        "implement the authentication module using JWT with refresh tokens and rotation".data⟩
      (by decide)
    rw [if_pos (by decide)] at h
    simpa using h

/-- Witness for C1 at a 21-character captured span: a single decision
match strictly inside the window yields exactly one decision observation. -/
theorem decision_length_window_witness :
    decisionMatches "I'll aaaaaaaaaaaaaaaaaaaaa" =
      [⟨"I'll aaaaaaaaaaaaaaaaaaaaa".data, "aaaaaaaaaaaaaaaaaaaaa".data⟩] ∧
    (extractObservations (fun _ => "obs") "ts" ⟨"", "ch"⟩
        ⟨"I'll aaaaaaaaaaaaaaaaaaaaa"⟩).filter (fun e => e.type == "decision") =
      [⟨"obs", "I'll aaaaaaaaaaaaaaaaaaaaa", "decision", "ts", "ch"⟩] := by
  refine ⟨by decide, ?_⟩
  have h := (decision_length_window (fun _ => "obs") "ts" "ch").1 ""
    "I'll aaaaaaaaaaaaaaaaaaaaa"
    ⟨"I'll aaaaaaaaaaaaaaaaaaaaa".data, "aaaaaaaaaaaaaaaaaaaaa".data⟩ (by decide)
  rw [if_pos (by decide)] at h
  simpa using h

/-- C9 counterexample: with a size cap of 1, adding favorite 2 evicts the
previously added favorite 1 although no explicit remove, toggle or clear
was ever called on it — the capture-free claim that favorites disappear
only by explicit user action fails at the cap. -/
theorem favorites_cap_eviction_cex :
    ((FavoritesStore.mk 1 []).add 1 none 10).isFavorite 1 = true ∧
    (((FavoritesStore.mk 1 []).add 1 none 10).add 2 none 20).isFavorite 1 = false := by
  decide

/-- C9 amended: an `add` that leaves the store within `maxItems` never
touches any other favorite; only when the cap is exceeded does `add` evict,
and then it removes the oldest entries beyond the cap (here the older of
two favorites under cap 1). -/
theorem favorites_add_spec :
    (∀ (s : FavoritesStore) (oid : Nat) (note : Option String) (now k : Nat),
      k ≠ oid →
      (mapSet s.favorites oid ⟨oid, note, now⟩).length ≤ s.maxItems →
      mapGet (s.add oid note now).favorites k = mapGet s.favorites k) ∧
    (((FavoritesStore.mk 1 []).add 1 none 10).add 2 none 20).favorites =
      [(2, ⟨2, none, 20⟩)] := by
  refine ⟨?_, by decide⟩
  intro s oid note now k hk hcap
  unfold FavoritesStore.add FavoritesStore.enforceLimit
  rw [if_pos hcap]
  exact mapGet_mapSet_ne oid k ⟨oid, note, now⟩ hk s.favorites

/-- Witness for C9 amended: an add below the cap leaves the other favorite
in place. -/
theorem favorites_add_spec_witness :
    (1 : Nat) ≠ 2 ∧
    (mapSet (FavoritesStore.mk 2 [(1, ⟨1, none, 5⟩)]).favorites 2
      ⟨2, none, 9⟩).length ≤ (FavoritesStore.mk 2 [(1, ⟨1, none, 5⟩)]).maxItems ∧
    mapGet ((FavoritesStore.mk 2 [(1, ⟨1, none, 5⟩)]).add 2 none 9).favorites 1 =
      mapGet (FavoritesStore.mk 2 [(1, ⟨1, none, 5⟩)]).favorites 1 :=
  ⟨by decide, by decide,
    favorites_add_spec.1 (FavoritesStore.mk 2 [(1, ⟨1, none, 5⟩)]) 2 none 9 1
      (by decide) (by decide)⟩

/-- C6: deleting a Session removes every one of its Observations, and the
cascades leave no orphaned observation, tag-association or favorite row;
deleting an Observation removes its tag associations and favorite entry;
referential integrity is preserved by both. -/
theorem session_delete_cascade (db : Db) (sid : Nat) (h : wfRefs db) :
    wfRefs (deleteSession db sid) ∧
    (∀ o ∈ (deleteSession db sid).observations, o.sessionId ≠ sid) ∧
    (∀ oid : Nat,
      wfRefs (deleteObservation db oid) ∧
      (∀ t ∈ (deleteObservation db oid).observationTags, t.1 ≠ oid) ∧
      (∀ f ∈ (deleteObservation db oid).favorites, f.1 ≠ oid)) := by
  obtain ⟨h1, h2, h3⟩ := h
  have survive : ∀ x : Nat, x ∈ obsIds db →
      x ∉ ((db.observations.filter (fun o => o.sessionId == sid)).map (·.id)) →
      x ∈ obsIds (deleteSession db sid) := by
    intro x hx hnd
    obtain ⟨o, ho, hid⟩ := by simpa only [obsIds, List.mem_map] using hx
    simp only [deleteSession, obsIds, List.mem_map, List.mem_filter]
    refine ⟨o, ⟨ho, ?_⟩, hid⟩
    by_cases hs : o.sessionId = sid
    · exact absurd (hid ▸ List.mem_map_of_mem (·.id)
        (List.mem_filter.mpr ⟨ho, by simp [hs]⟩)) hnd
    · simp [hs]
  refine ⟨⟨?_, ?_, ?_⟩, ?_, ?_⟩
  · intro o ho
    simp only [deleteSession, List.mem_filter] at ho ⊢
    exact ⟨h1 o ho.1, ho.2⟩
  · intro t ht
    have ht' : t ∈ db.observationTags ∧ _ := List.mem_filter.mp ht
    obtain ⟨hmem, hc⟩ := ht'
    refine survive t.1 (h2 t hmem) ?_
    simpa using hc
  · intro f hf
    obtain ⟨hmem, hc⟩ := List.mem_filter.mp hf
    refine survive f.1 (h3 f hmem) ?_
    simpa using hc
  · intro o ho
    obtain ⟨-, hne⟩ := List.mem_filter.mp ho
    simpa using hne
  · intro oid
    have surviveObs : ∀ x : Nat, x ∈ obsIds db → x ≠ oid →
        x ∈ obsIds (deleteObservation db oid) := by
      intro x hx hne
      obtain ⟨o, ho, hid⟩ := by simpa only [obsIds, List.mem_map] using hx
      simp only [deleteObservation, obsIds, List.mem_map, List.mem_filter]
      exact ⟨o, ⟨ho, by simp [hid ▸ hne]⟩, hid⟩
    refine ⟨⟨?_, ?_, ?_⟩, ?_, ?_⟩
    · intro o ho
      obtain ⟨hmem, -⟩ := List.mem_filter.mp ho
      exact h1 o hmem
    · intro t ht
      obtain ⟨hmem, hne⟩ := List.mem_filter.mp ht
      exact surviveObs t.1 (h2 t hmem) (by simpa using hne)
    · intro f hf
      obtain ⟨hmem, hne⟩ := List.mem_filter.mp hf
      exact surviveObs f.1 (h3 f hmem) (by simpa using hne)
    · intro t ht
      obtain ⟨-, hne⟩ := List.mem_filter.mp ht
      simpa using hne
    · intro f hf
      obtain ⟨-, hne⟩ := List.mem_filter.mp hf
      simpa using hne

/-- Witness for C6 at `dbExample`, deleting session 1. -/
theorem session_delete_cascade_witness :
    wfRefs dbExample ∧
    wfRefs (deleteSession dbExample 1) ∧
    ∀ o ∈ (deleteSession dbExample 1).observations, o.sessionId ≠ 1 := by
  have hwf : wfRefs dbExample := by
    refine ⟨?_, ?_, ?_⟩ <;> decide
  have h := session_delete_cascade dbExample 1 hwf
  exact ⟨hwf, h.1, h.2.1⟩

/-- Replacing the unique row with a given rowid: filtering it out and
appending the replacement is a permutation of the pointwise replacement. -/
theorem filter_append_replace_perm (oid : Nat) (newRow : FtsRow) :
    ∀ L : List FtsRow, L.countP (fun r => r.rowid == oid) = 1 →
      (L.filter (fun r => !(r.rowid == oid)) ++ [newRow]).Perm
        (L.map (fun r => if r.rowid == oid then newRow else r)) := by
  intro L
  induction L with
  | nil => intro hc; simp at hc
  | cons r rest ih =>
    intro hc
    rw [List.countP_cons] at hc
    by_cases hr : (r.rowid == oid) = true
    · have hc0 : rest.countP (fun x => x.rowid == oid) = 0 := by
        rw [if_pos hr] at hc; omega
      have hnone := List.countP_eq_zero.mp hc0
      have hfilter : rest.filter (fun x => !(x.rowid == oid)) = rest := by
        rw [List.filter_eq_self]
        intro a ha
        simpa using hnone a ha
      have hmap : rest.map (fun x => if x.rowid == oid then newRow else x) = rest := by
        have hpt : ∀ a ∈ rest, (if a.rowid == oid then newRow else a) = id a := by
          intro a ha
          simp [hnone a ha]
        rw [List.map_congr_left hpt, List.map_id]
      rw [List.filter_cons_of_neg (by simp [hr]), List.map_cons, if_pos hr,
        hfilter, hmap]
      exact List.perm_append_singleton newRow rest
    · have hr' : (r.rowid == oid) = false := by simpa using hr
      have hc1 : rest.countP (fun x => x.rowid == oid) = 1 := by
        rw [if_neg hr] at hc; omega
      rw [List.filter_cons_of_pos (by simp [hr']), List.map_cons, if_neg hr,
        List.cons_append]
      exact (ih hc1).cons r

/-- C7: each of the three mutation paths on the observation table — insert,
update, delete — preserves both the shadow-index synchronization (the FTS
table holds exactly the projections of the observation rows) and primary
key uniqueness. -/
theorem fts_shadow_sync (db : Db) (hsync : ftsSynced db) (hids : wfIds db) :
    (∀ (o : Obs) (db' : Db), insertObservation db o = some db' →
      ftsSynced db' ∧ wfIds db') ∧
    (∀ (oid : Nat) (t s n f c : String),
      ftsSynced (updateObservation db oid t s n f c) ∧
      wfIds (updateObservation db oid t s n f c)) ∧
    (∀ oid : Nat, ftsSynced (deleteObservation db oid) ∧
      wfIds (deleteObservation db oid)) := by
  refine ⟨?_, ?_, ?_⟩
  · intro o db' hdb
    simp only [insertObservation] at hdb
    by_cases hcond : (db.sessions.contains o.sessionId && !((obsIds db).contains o.id)) = true
    · rw [if_pos hcond] at hdb
      obtain rfl := (Option.some.inj hdb).symm
      have hfresh : o.id ∉ db.observations.map (·.id) := by
        have h2 := hcond
        simp only [Bool.and_eq_true] at h2
        simpa [obsIds] using h2.2
      constructor
      · show (db.fts ++ [ftsProj o]).Perm ((db.observations ++ [o]).map ftsProj)
        rw [List.map_append]
        exact hsync.append_right [ftsProj o]
      · show ((db.observations ++ [o]).map (·.id)).Nodup
        rw [List.map_append, List.map_singleton]
        refine List.Nodup.append hids (List.nodup_singleton o.id) ?_
        intro a ha hb
        rw [List.mem_singleton] at hb
        exact hfresh (hb ▸ ha)
    · rw [if_neg hcond] at hdb
      exact absurd hdb (by simp)
  · intro oid t s n f c
    by_cases hexists : db.observations.any (fun o => o.id == oid) = true
    · constructor
      · unfold ftsSynced
        simp only [updateObservation, hexists, if_true]
        have hcount : (db.observations.map ftsProj).countP (fun r => r.rowid == oid) = 1 := by
          have hone : List.count oid (db.observations.map (·.id)) = 1 := by
            have hle := List.nodup_iff_count_le_one.mp hids oid
            have hmem : oid ∈ db.observations.map (·.id) := by
              obtain ⟨o', ho', hid⟩ := by simpa using List.any_eq_true.mp hexists
              exact hid ▸ List.mem_map_of_mem (·.id) ho'
            have := List.count_pos_iff.mpr hmem
            omega
          calc List.countP (fun r => r.rowid == oid) (db.observations.map ftsProj)
              = List.countP ((fun r => r.rowid == oid) ∘ ftsProj) db.observations :=
                List.countP_map (fun r => r.rowid == oid) ftsProj db.observations
            _ = List.countP ((· == oid) ∘ (·.id)) db.observations := rfl
            _ = List.countP (· == oid) (db.observations.map (·.id)) :=
                (List.countP_map (· == oid) (·.id) db.observations).symm
            _ = 1 := hone
        have hstep := (hsync.filter (fun r => !(r.rowid == oid))).append_right
          [(⟨oid, t, s, n, f, c⟩ : FtsRow)]
        refine hstep.trans ?_
        refine (filter_append_replace_perm oid ⟨oid, t, s, n, f, c⟩ _ hcount).trans ?_
        rw [List.map_map, List.map_map]
        refine List.Perm.of_eq (List.map_congr_left ?_)
        intro o' _
        by_cases h : o'.id = oid
        · simp [Function.comp, ftsProj, h]
        · simp [Function.comp, ftsProj, h]
      · unfold wfIds
        simp only [updateObservation, hexists, if_true]
        rw [List.map_map]
        have hpt : ∀ o' ∈ db.observations,
            ((fun o : Obs => o.id) ∘ fun o : Obs =>
              if o.id == oid then
                { o with title := t, subtitle := s, narrative := n,
                         facts := f, concepts := c }
              else o) o' = o'.id := by
          intro o' _
          by_cases h : o'.id = oid <;> simp [Function.comp, h]
        rw [List.map_congr_left hpt]
        exact hids
    · constructor
      · unfold ftsSynced
        simp only [updateObservation, if_neg hexists]
        exact hsync
      · unfold wfIds
        simp only [updateObservation, if_neg hexists]
        exact hids
  · intro oid
    constructor
    · show (db.fts.filter (fun r => !(r.rowid == oid))).Perm
        ((db.observations.filter (fun o => !(o.id == oid))).map ftsProj)
      have hcomm : (db.observations.map ftsProj).filter (fun r => !(r.rowid == oid)) =
          (db.observations.filter (fun o => !(o.id == oid))).map ftsProj := by
        rw [List.filter_map]
        rfl
      exact (hsync.filter _).trans (List.Perm.of_eq hcomm)
    · show ((db.observations.filter (fun o => !(o.id == oid))).map (·.id)).Nodup
      exact List.Nodup.sublist ((List.filter_sublist _).map _) hids

/-- Witness for C7 at `dbExample`: updating observation 1 keeps the shadow
index synchronized. -/
theorem fts_shadow_sync_witness :
    ftsSynced dbExample ∧ wfIds dbExample ∧
    ftsSynced (updateObservation dbExample 1 "t9" "s9" "n9" "f9" "c9") ∧
    wfIds (updateObservation dbExample 1 "t9" "s9" "n9" "f9" "c9") := by
  have hs : ftsSynced dbExample := by unfold ftsSynced; decide
  have hi : wfIds dbExample := by unfold wfIds; decide
  have h := (fts_shadow_sync dbExample hs hi).2.1 1 "t9" "s9" "n9" "f9" "c9"
  exact ⟨hs, hi, h.1, h.2⟩

end ClaudeRecall
